import Mathlib

/-!
# Verification of the 3shape/automate scripts

Shallow embedding of the two automation scripts `src/api/v3/automate.js` and
`src/ApiV2/automate.js`. JavaScript strings are modelled as Lean `String`
(with character-level operations mirroring the JS string API), HTTP responses
as records carrying the fields the scripts read, the poll loop as structural
recursion over a scripted list of status responses, and external effects
(HTTP calls made, files written, sleeps performed) as explicit data in the
results. Thrown JS errors are modelled by an error type distinguishing
`Error(msg)` from `TypeError` and `ReferenceError`.
-/

/-! ## Endpoint resolver (`getEndpoint`, identical in both versions) -/

/-- One character-level step of JS `rawEndpoint.slice(0, -1)` guarded by
`rawEndpoint.endsWith('/')`: drop the last character when it is a slash. -/
def stripSlash (s : List Char) : List Char :=
  if s.getLast? = some '/' then s.dropLast else s

/-- The characters of `"http"`, the argument of the JS `startsWith` check. -/
def httpChars : List Char := ['h', 't', 't', 'p']

/-- The characters of `"https://"`, the scheme the script prepends. -/
def httpsSchemeChars : List Char := ['h', 't', 't', 'p', 's', ':', '/', '/']

/-- Character-level body of `getEndpoint`: strip one trailing slash
(`endsWith('/')` + `slice(0, -1)`), then prepend `https://` unless the result
starts with the four characters `http` (JS `startsWith("http")`). -/
def getEndpointChars (s : List Char) : List Char :=
  let s1 := stripSlash s
  if s1.take 4 = httpChars then s1 else httpsSchemeChars ++ s1

/-- `getEndpoint` from `src/api/v3/automate.js` lines 50-62 and
`src/ApiV2/automate.js` lines 49-61 (the two definitions are identical). -/
def getEndpoint (rawEndpoint : String) : String :=
  String.mk (getEndpointChars rawEndpoint.data)

/-- Code points of a string, as JS would expose them. -/
def codePoints (s : String) : List Nat :=
  s.data.map Char.toNat

/-- Spec-side predicate, modelled from the spec's words "if no scheme
present": the string contains the scheme separator `://` somewhere. -/
def hasScheme : List Char → Bool
  | [] => false
  | ':' :: '/' :: '/' :: _ => true
  | _ :: rest => hasScheme rest

/-! ## Order status and the poll loop (`waitForReady`, identical in both
versions) -/

/-- The fields of a status object the scripts read:
`status.processing`, `status.failed`, `status.reviewable` (v3),
`status.accepted` (v2) and `status.message`. -/
structure OrderStatus where
  processing : Bool
  failed : Bool
  reviewable : Bool
  accepted : Bool
  message : String
deriving DecidableEq, Repr

/-- The fixed poll interval: `sleep(30000)` - 30 seconds in milliseconds. -/
def sleepIntervalMs : Nat := 30000

/-- Result of a `waitForReady` run over a scripted list of status responses:
the returned status or the thrown error, together with the number of
completed `getStatus` calls and the list of sleep durations performed. -/
inductive WaitOutcome where
  | ok (status : OrderStatus) (calls : Nat) (sleeps : List Nat)
  | fatal (msg : String) (calls : Nat) (sleeps : List Nat)
  | scriptEnded (calls : Nat) (sleeps : List Nat)
deriving DecidableEq, Repr

/-- The `while (status.processing)` loop of `waitForReady`: while the current
status is processing, sleep 30 seconds and fetch the next scripted status;
once the loop exits, throw if `status.failed`, otherwise return the status. -/
def waitLoop (orderId : String) (status : OrderStatus) (rest : List OrderStatus)
    (calls : Nat) (sleeps : List Nat) : WaitOutcome :=
  if status.processing = true then
    match rest with
    | [] => WaitOutcome.scriptEnded calls (sleeps ++ [sleepIntervalMs])
    | s :: rest2 => waitLoop orderId s rest2 (calls + 1) (sleeps ++ [sleepIntervalMs])
  else if status.failed = true then
    WaitOutcome.fatal ("Processing failed for order " ++ orderId ++ "!") calls sleeps
  else
    WaitOutcome.ok status calls sleeps

/-- `waitForReady` from `src/api/v3/automate.js` lines 335-354 and
`src/ApiV2/automate.js` lines 173-192 (identical): a first `getStatus` call,
then the processing loop. The scripted list holds the successive status
objects the server would return. -/
def waitForReady (orderId : String) (script : List OrderStatus) : WaitOutcome :=
  match script with
  | [] => WaitOutcome.scriptEnded 0 []
  | s :: rest => waitLoop orderId s rest 1 []

/-! ## HTTP responses, JS errors, cookies and the authentication handshake -/

/-- A thrown JS error: a plain `Error(msg)`, or the `TypeError` raised by a
method call on `null`, or the `ReferenceError` raised by reading an
identifier that is not in scope. -/
inductive JsError where
  | errorMsg (msg : String)
  | typeError (msg : String)
  | referenceError (msg : String)
deriving DecidableEq, Repr

/-- The response headers, as node-fetch exposes them. -/
structure HttpHeaders where
  pairs : List (String × String)
deriving DecidableEq, Repr

/-- ASCII lower-casing of one character (header names are ASCII). -/
def lowerChar (c : Char) : Char :=
  if 65 ≤ c.toNat ∧ c.toNat ≤ 90 then Char.ofNat (c.toNat + 32) else c

/-- ASCII lower-casing of a header name. -/
def lowerName (s : String) : String :=
  String.mk (s.data.map lowerChar)

/-- node-fetch `headers.get(name)`: case-insensitive lookup, `null` (here
`none`) when the header is absent. -/
def HttpHeaders.get (h : HttpHeaders) (name : String) : Option String :=
  (h.pairs.find? (fun p => lowerName p.1 = lowerName name)).map (fun p => p.2)

instance {e a : Type} [DecidableEq e] [DecidableEq a] : DecidableEq (Except e a) := fun
  | Except.ok x, Except.ok y =>
    if h : x = y then isTrue (by rw [h]) else isFalse (by intro hc; cases hc; exact h rfl)
  | Except.error x, Except.error y =>
    if h : x = y then isTrue (by rw [h]) else isFalse (by intro hc; cases hc; exact h rfl)
  | Except.ok _, Except.error _ => isFalse (by intro hc; cases hc)
  | Except.error _, Except.ok _ => isFalse (by intro hc; cases hc)

/-- The fields of a fetch response the scripts read on non-binary calls. -/
structure FetchResponse where
  ok : Bool
  status : Nat
  headers : HttpHeaders
deriving DecidableEq, Repr

/-- `getCookies` from `src/api/v3/automate.js` lines 94-98 and
`src/ApiV2/automate.js` lines 90-94 (identical):
`response.headers.get('set-cookie')` followed by `cookie.split(';')`.
When the header is absent, `get` returns `null` and `null.split` throws a
`TypeError`. -/
def getCookies (response : FetchResponse) : Except JsError (List String) :=
  match response.headers.get "set-cookie" with
  | none => Except.error (JsError.typeError
      "Cannot read properties of null (reading 'split')")
  | some cookie => Except.ok (cookie.splitOn ";")

/-- `makeCookieHeader` (v3 form): wrap a token as a `cookie` header pair. -/
def makeCookieHeader (token : String) : String × String :=
  ("cookie", token)

/-- Body of the v3 `xsrf` endpoint response: `content.headerName` and
`content.requestToken`. -/
structure XsrfBody where
  headerName : String
  requestToken : String
deriving DecidableEq, Repr

/-- `getAntiforgeryHeaders` from `src/api/v3/automate.js` lines 70-86:
fail on a non-ok response, otherwise extract the cookies (first cookie is the
antiforgery token) and pair them with the verification-token header taken
from the JSON body. -/
def getAntiforgeryHeaders (response : FetchResponse) (content : XsrfBody) :
    Except JsError (List (String × String)) :=
  if response.ok = false then
    Except.error (JsError.errorMsg
      ("Unable to get antiforgery token! [" ++ toString response.status ++ "]"))
  else
    match getCookies response with
    | Except.error e => Except.error e
    | Except.ok cookies =>
      let verificationTokenHeader := (content.headerName, content.requestToken)
      let antiforgeryToken := cookies.headD ""
      let antiforgeryCookie := makeCookieHeader antiforgeryToken
      Except.ok [antiforgeryCookie, verificationTokenHeader]

/-- Body of the v2 `xsrf/get` endpoint response: `content.tokenName` and
`content.token`. -/
structure XsrfBodyV2 where
  tokenName : String
  token : String
deriving DecidableEq, Repr

/-- `getTokens` from `src/ApiV2/automate.js` lines 68-83: fail on a non-ok
response, otherwise return the raw antiforgery token (first cookie) together
with the verification-token header from the JSON body. -/
def getTokens (response : FetchResponse) (content : XsrfBodyV2) :
    Except JsError (String × (String × String)) :=
  if response.ok = false then
    Except.error (JsError.errorMsg "Unable to get antiforgery token!")
  else
    match getCookies response with
    | Except.error e => Except.error e
    | Except.ok cookies =>
      let verificationTokenHeader := (content.tokenName, content.token)
      let antiforgeryToken := cookies.headD ""
      Except.ok (antiforgeryToken, verificationTokenHeader)

/-- `getAuthHeader` from `src/api/v3/automate.js` lines 116-120: the first
cookie of the login response wrapped as a cookie header. -/
def getAuthHeader (loginResponse : FetchResponse) :
    Except JsError (String × String) :=
  match getCookies loginResponse with
  | Except.error e => Except.error e
  | Except.ok cookies =>
    let authToken := cookies.headD ""
    Except.ok (makeCookieHeader authToken)

/-- JS identifier lookup against the values visible at a program point:
reading a name with no binding throws `ReferenceError: <name> is not
defined`. -/
def lookupId (env : List (String × FetchResponse)) (x : String) :
    Except JsError FetchResponse :=
  match env.find? (fun p => p.1 = x) with
  | none => Except.error (JsError.referenceError (x ++ " is not defined"))
  | some p => Except.ok p.2

/-- The identifier the rejected-login template literal of
`src/api/v3/automate.js` line 143 reads for the status code: the source says
`response.status`, although the login response is bound as `loginResponse`. -/
def v3LoginFailStatusVar : String := "response"

/-- The error thrown by v3 `login` when `loginResponse.ok` is false: the
message `Unable to log in! [<status>]` is built from `v3LoginFailStatusVar`,
looked up in the environment of response values in scope at line 143, where
only `loginResponse` is bound. -/
def v3RejectedLoginError (loginResponse : FetchResponse) : JsError :=
  match lookupId [("loginResponse", loginResponse)] v3LoginFailStatusVar with
  | Except.error e => e
  | Except.ok r => JsError.errorMsg ("Unable to log in! [" ++ toString r.status ++ "]")

/-- `login` from `src/api/v3/automate.js` lines 127-157: fetch initial
antiforgery headers, POST the credentials, throw on a rejected login,
otherwise extract the auth cookie, re-fetch antiforgery headers under it and
return the combined header set. The three scripted responses (with the JSON
bodies of the two xsrf calls) stand for the three HTTP calls made. -/
def v3Login (xsrfResponse : FetchResponse) (xsrfContent : XsrfBody)
    (loginResponse : FetchResponse)
    (xsrfResponse2 : FetchResponse) (xsrfContent2 : XsrfBody) :
    Except JsError (List (String × String)) :=
  match getAntiforgeryHeaders xsrfResponse xsrfContent with
  | Except.error e => Except.error e
  | Except.ok _initialAntiforgeryHeaders =>
    if loginResponse.ok = false then
      Except.error (v3RejectedLoginError loginResponse)
    else
      match getAuthHeader loginResponse with
      | Except.error e => Except.error e
      | Except.ok authHeader =>
        match getAntiforgeryHeaders xsrfResponse2 xsrfContent2 with
        | Except.error e => Except.error e
        | Except.ok antiforgeryHeaders =>
          Except.ok (antiforgeryHeaders ++ [authHeader])

/-! ## The zip archive (JsZip modelled at its interface)

The scripts hand file names and contents to the external JsZip library and
ship the generated buffer. The library is modelled at its interface:
`file` adds an entry (replacing an entry of the same name, as JsZip does),
and `generateAsync` serialises the entries into a flat token list by an
invertible encoding standing for the DEFLATE archive format, with `inflate`
as the matching decoder. -/

/-- A named member of the archive. -/
structure ZipEntry where
  name : String
  content : List Nat
deriving DecidableEq, Repr

/-- The JsZip object: its accumulated entries. -/
structure JsZip where
  entries : List ZipEntry
deriving DecidableEq, Repr

/-- `new JsZip()`. -/
def JsZip.empty : JsZip := ⟨[]⟩

/-- `zip.file(name, content)`: add the entry, replacing any entry already
present under the same name. -/
def JsZip.file (z : JsZip) (name : String) (content : List Nat) : JsZip :=
  if z.entries.any (fun e => e.name = name) then
    ⟨z.entries.map (fun e => if e.name = name then ⟨name, content⟩ else e)⟩
  else
    ⟨z.entries ++ [⟨name, content⟩]⟩

/-- Serialisation of one entry: name length, name code points, content
length, content bytes. -/
def deflateEntry (e : ZipEntry) : List Nat :=
  let nameBits := e.name.data.map Char.toNat
  nameBits.length :: (nameBits ++ (e.content.length :: e.content))

/-- Serialisation of an entry list into the archive token stream. -/
def deflateAll : List ZipEntry → List Nat
  | [] => []
  | e :: es => deflateEntry e ++ deflateAll es

/-- `zip.generateAsync({type: "arraybuffer", compression: "DEFLATE", ...})`:
the produced archive buffer. -/
def JsZip.generateAsync (z : JsZip) : List Nat :=
  deflateAll z.entries

/-- Decoder for the archive stream, with fuel bounded by the stream length. -/
def inflateAux : Nat → List Nat → List ZipEntry
  | 0, _ => []
  | _ + 1, [] => []
  | fuel + 1, n :: rest =>
    let name := String.mk ((rest.take n).map Char.ofNat)
    match rest.drop n with
    | [] => []
    | m :: rest2 => ⟨name, rest2.take m⟩ :: inflateAux fuel (rest2.drop m)

/-- Decompress an archive back into its named members. -/
def inflate (archive : List Nat) : List ZipEntry :=
  inflateAux archive.length archive

/-! ## Scan names and the upload path -/

/-- JS `String.split` on a character class: cut the character list at every
separator occurrence, keeping empty pieces (`"a/".split` yields
`["a", ""]`, `"".split` yields `[""]`). -/
def splitChars (p : Char → Bool) : List Char → List (List Char)
  | [] => [[]]
  | c :: rest =>
    if p c then [] :: splitChars p rest
    else
      match splitChars p rest with
      | [] => [[c]]
      | piece :: pieces => (c :: piece) :: pieces

/-- The module-level scan-name derivation
`path.split(/[\\|\/]/).pop()`: the last piece of the path split on
backslash, pipe or slash. -/
def scanNameOf (path : String) : String :=
  String.mk ((splitChars (fun c => c = '\\' ∨ c = '|' ∨ c = '/') path.data).getLastD [])

/-- `getScanZipAsBuffer` from `src/api/v3/automate.js` lines 164-186: read
both scan files (`fsRead` stands for `fs.readFile`), put them into a fresh
zip under their scan names, and generate the buffer. -/
def getScanZipAsBuffer (fsRead : String → List Nat)
    (upperJawPath lowerJawPath : String) : List Nat :=
  let zip := JsZip.empty
  let upperContent := fsRead upperJawPath
  let lowerContent := fsRead lowerJawPath
  let zip := zip.file (scanNameOf upperJawPath) upperContent
  let zip := zip.file (scanNameOf lowerJawPath) lowerContent
  zip.generateAsync

/-- The server-issued order file of the v2 qualification response. -/
structure OrderFile where
  name : String
  content : List Nat
deriving DecidableEq, Repr

/-- The multipart form data built for the upload. -/
structure UploadFormData where
  fileName : String
  fileType : String
  fileContent : List Nat
deriving DecidableEq, Repr

/-- `getUploadContent` from `src/ApiV2/automate.js` lines 127-154: zip both
scans plus the server-issued order file, then wrap the buffer as form data
named `<orderId>.zip` of type `application/zip`. -/
def getUploadContent (fsRead : String → List Nat)
    (upperJawPath lowerJawPath : String) (orderId : String)
    (orderFile : OrderFile) : UploadFormData :=
  let zip := JsZip.empty
  let upperContent := fsRead upperJawPath
  let lowerContent := fsRead lowerJawPath
  let zip := zip.file (scanNameOf upperJawPath) upperContent
  let zip := zip.file (scanNameOf lowerJawPath) lowerContent
  let zip := zip.file orderFile.name orderFile.content
  let arrayBuffer := zip.generateAsync
  { fileName := orderId ++ ".zip", fileType := "application/zip",
    fileContent := arrayBuffer }

/-- The fields of the v2 qualification response the script reads, together
with the HTTP `ok`/`status` fields it could have read: the JSON body carries
`errorMessage` (empty string meaning success), `orderId` and `orderFile`. -/
structure QualificationResponse where
  ok : Bool
  status : Nat
  errorMessage : String
  orderId : String
  orderFile : OrderFile
deriving DecidableEq, Repr

/-- Result of the v2 `upload` function: the returned order id together with
the form data that was posted, or the thrown error. -/
inductive UploadOutcome where
  | success (orderId : String) (formData : UploadFormData)
  | fatal (msg : String)
deriving DecidableEq, Repr

/-- Whether the upload run threw. -/
def UploadOutcome.isFatal : UploadOutcome → Bool
  | UploadOutcome.fatal _ => true
  | UploadOutcome.success _ _ => false

/-- `upload` from `src/ApiV2/automate.js` lines 249-305: POST the order info
for qualification, throw when the body's `errorMessage` is non-empty (the
response's HTTP status is never inspected), build the upload form data, POST
it, and throw when the upload response is not ok. `uploadOk` stands for
`uploadResponse.ok`. -/
def upload (fsRead : String → List Nat) (upperJawPath lowerJawPath : String)
    (qualificationResponse : QualificationResponse) (uploadOk : Bool) :
    UploadOutcome :=
  if qualificationResponse.errorMessage ≠ "" then
    UploadOutcome.fatal qualificationResponse.errorMessage
  else
    let orderId := qualificationResponse.orderId
    let orderFile := qualificationResponse.orderFile
    let formData := getUploadContent fsRead upperJawPath lowerJawPath orderId orderFile
    if uploadOk = false then
      UploadOutcome.fatal ("Upload failed for order " ++ orderId ++ "!")
    else
      UploadOutcome.success orderId formData

/-! ## Result finalizer: review/accept and download -/

/-- The fields of the binary download response the scripts read. -/
structure BinaryResponse where
  ok : Bool
  status : Nat
  body : List Nat
deriving DecidableEq, Repr

/-- An HTTP call issued during the finalizer phase. -/
inductive ApiAction where
  | reviewPost (orderId : String) (action : String)
  | acceptPost (orderId : String)
  | downloadGet (orderId : String)
deriving DecidableEq, Repr

/-- A file written to disk: path and bytes. -/
structure FileWrite where
  path : String
  content : List Nat
deriving DecidableEq, Repr

/-- Observable outcome of the finalizer phase: the HTTP calls issued in
order, the files written, and the thrown error if any. -/
structure FinalizeOutcome where
  calls : List ApiAction
  writes : List FileWrite
  fatalError : Option String
deriving DecidableEq, Repr

namespace V3

/-- `download` from `src/api/v3/automate.js` lines 385-401: GET the result;
throw on a non-ok response, otherwise write the body to
`` `${outputDirectory}\\${orderId}.zip` `` (a backslash separator: the JS
template contains the escape `\\`). -/
def download (outputDirectory orderId : String) (response : BinaryResponse) :
    FinalizeOutcome :=
  if response.ok = false then
    { calls := [ApiAction.downloadGet orderId], writes := [],
      fatalError := some ("Unable to download order " ++ orderId ++ "! ["
        ++ toString response.status ++ "]") }
  else
    { calls := [ApiAction.downloadGet orderId],
      writes := [⟨outputDirectory ++ "\\" ++ orderId ++ ".zip", response.body⟩],
      fatalError := none }

/-- `acceptAndDownload` from `src/api/v3/automate.js` lines 410-417: when the
status is reviewable, POST an accept review (`review` lines 363-377, throwing
on a non-ok response), then download. -/
def acceptAndDownload (outputDirectory orderId : String) (status : OrderStatus)
    (reviewResponse : FetchResponse) (downloadResponse : BinaryResponse) :
    FinalizeOutcome :=
  if status.reviewable = true then
    if reviewResponse.ok = false then
      { calls := [ApiAction.reviewPost orderId "accept"], writes := [],
        fatalError := some ("Unable to accept order " ++ orderId ++ "! ["
          ++ toString reviewResponse.status ++ "]") }
    else
      let d := download outputDirectory orderId downloadResponse
      { d with calls := ApiAction.reviewPost orderId "accept" :: d.calls }
  else
    download outputDirectory orderId downloadResponse

end V3

namespace V2

/-- `download` from `src/ApiV2/automate.js` lines 314-344: when the status is
not already accepted, POST an accept (throwing on a non-ok response); then
GET the result, throw on a non-ok response, otherwise write the body to
`` `${outputDirectory}\\${orderId}.zip` `` (backslash separator). -/
def download (outputDirectory orderId : String) (status : OrderStatus)
    (acceptResponse : FetchResponse) (downloadResponse : BinaryResponse) :
    FinalizeOutcome :=
  if status.accepted = false then
    if acceptResponse.ok = false then
      { calls := [ApiAction.acceptPost orderId], writes := [],
        fatalError := some ("Unable to accept order " ++ orderId ++ "!") }
    else if downloadResponse.ok = false then
      { calls := [ApiAction.acceptPost orderId, ApiAction.downloadGet orderId],
        writes := [],
        fatalError := some ("Unable to download order " ++ orderId ++ "!") }
    else
      { calls := [ApiAction.acceptPost orderId, ApiAction.downloadGet orderId],
        writes := [⟨outputDirectory ++ "\\" ++ orderId ++ ".zip",
          downloadResponse.body⟩],
        fatalError := none }
  else if downloadResponse.ok = false then
    { calls := [ApiAction.downloadGet orderId], writes := [],
      fatalError := some ("Unable to download order " ++ orderId ++ "!") }
  else
    { calls := [ApiAction.downloadGet orderId],
      writes := [⟨outputDirectory ++ "\\" ++ orderId ++ ".zip",
        downloadResponse.body⟩],
      fatalError := none }

end V2

/-! ## Lemmas about the poll loop -/

/-- Running the loop through a block of processing statuses: each one costs
one further `getStatus` call and one 30-second sleep. -/
lemma waitLoop_processing_run (orderId : String) (pre : List OrderStatus)
    (p s : OrderStatus) (rest : List OrderStatus) (calls : Nat) (sleeps : List Nat)
    (hp : p.processing = true) (hpre : ∀ x ∈ pre, x.processing = true) :
    waitLoop orderId p (pre ++ s :: rest) calls sleeps =
      waitLoop orderId s rest (calls + pre.length + 1)
        (sleeps ++ List.replicate (pre.length + 1) sleepIntervalMs) := by
  induction pre generalizing p calls sleeps with
  | nil =>
    rw [waitLoop.eq_def]
    simp [hp]
  | cons q pre ih =>
    have hq : q.processing = true := hpre q (by simp)
    have hpre2 : ∀ x ∈ pre, x.processing = true := fun x hx => hpre x (by simp [hx])
    rw [waitLoop.eq_def]
    simp only [hp, if_true, List.cons_append]
    rw [ih q (calls + 1) (sleeps ++ [sleepIntervalMs]) hq hpre2]
    have hc : calls + 1 + pre.length + 1 = calls + (q :: pre).length + 1 := by
      simp [List.length_cons]
      omega
    have hsl : sleeps ++ [sleepIntervalMs] ++ List.replicate (pre.length + 1) sleepIntervalMs
        = sleeps ++ List.replicate ((q :: pre).length + 1) sleepIntervalMs := by
      simp [List.length_cons, List.replicate_succ, List.append_assoc]
    rw [hc, hsl]

/-- Once the loop meets a non-processing status it stops: the outcome is the
failure branch or the returned status, with no further calls or sleeps. -/
lemma waitLoop_exit (orderId : String) (s : OrderStatus) (rest : List OrderStatus)
    (calls : Nat) (sleeps : List Nat) (hs : s.processing = false) :
    waitLoop orderId s rest calls sleeps =
      if s.failed = true then
        WaitOutcome.fatal ("Processing failed for order " ++ orderId ++ "!") calls sleeps
      else
        WaitOutcome.ok s calls sleeps := by
  rw [waitLoop.eq_def]
  simp [hs]

/-- Shape of a whole `waitForReady` run whose script is a block of processing
statuses followed by a non-processing one. -/
lemma waitForReady_run (orderId : String) (pre : List OrderStatus)
    (s : OrderStatus) (rest : List OrderStatus)
    (hpre : ∀ x ∈ pre, x.processing = true) (hs : s.processing = false) :
    waitForReady orderId (pre ++ s :: rest) =
      if s.failed = true then
        WaitOutcome.fatal ("Processing failed for order " ++ orderId ++ "!")
          (pre.length + 1) (List.replicate pre.length sleepIntervalMs)
      else
        WaitOutcome.ok s (pre.length + 1) (List.replicate pre.length sleepIntervalMs) := by
  cases pre with
  | nil =>
    rw [waitForReady.eq_def]
    simp only [List.nil_append]
    rw [waitLoop_exit orderId s rest 1 [] hs]
    simp
  | cons p pre =>
    have hp : p.processing = true := hpre p (by simp)
    have hpre2 : ∀ x ∈ pre, x.processing = true := fun x hx => hpre x (by simp [hx])
    rw [waitForReady.eq_def]
    simp only [List.cons_append]
    rw [waitLoop_processing_run orderId pre p s rest 1 [] hp hpre2]
    rw [waitLoop_exit orderId s rest (1 + pre.length + 1)
      ([] ++ List.replicate (pre.length + 1) sleepIntervalMs) hs]
    have hc : 1 + pre.length + 1 = (p :: pre).length + 1 := by
      simp [List.length_cons]
      omega
    have hsl : [] ++ List.replicate (pre.length + 1) sleepIntervalMs
        = List.replicate ((p :: pre).length) sleepIntervalMs := by
      simp [List.length_cons]
    rw [hc, hsl]

/-! ## Claim C1 -/

/-- C1, counterexample: a fetched status can have `failed = true` while
`processing` is still `true`; `waitForReady` then neither raises an error nor
stops calling - the `failed` flag is only inspected after the processing loop
has exited, so the run here issues a second status call and returns the later
ready status normally. -/
theorem waitForReady_failed_while_processing_counterexample :
    (OrderStatus.failed ⟨true, true, false, false, "m"⟩ = true) ∧
    waitForReady "9" [⟨true, true, false, false, "m"⟩, ⟨false, false, false, false, "r"⟩]
      = WaitOutcome.ok ⟨false, false, false, false, "r"⟩ 2 [sleepIntervalMs] := by
  constructor
  · rfl
  · rfl

/-- C1, amended: if `waitForReady` observes a fetched status whose
`processing` flag is false and whose `failed` flag is true, it raises the
fatal error `Processing failed for order <id>!` and issues no further status
calls (the count of `getStatus` calls stops at that status, whatever the rest
of the script holds). -/
theorem waitForReady_failed_aborts (orderId : String) (pre rest : List OrderStatus)
    (s : OrderStatus) (hpre : ∀ x ∈ pre, x.processing = true)
    (hs : s.processing = false) (hf : s.failed = true) :
    waitForReady orderId (pre ++ s :: rest) =
      WaitOutcome.fatal ("Processing failed for order " ++ orderId ++ "!")
        (pre.length + 1) (List.replicate pre.length sleepIntervalMs) := by
  rw [waitForReady_run orderId pre s rest hpre hs]
  simp [hf]

/-- C1 witness: with one processing status, then a failed status, then a
would-be ready status, the run aborts after the second call and never reaches
the third scripted status. -/
theorem waitForReady_failed_aborts_witness :
    waitForReady "9"
        ([⟨true, false, false, false, "p"⟩] ++
          ⟨false, true, false, false, "f"⟩ :: [⟨false, false, false, false, "r"⟩]) =
      WaitOutcome.fatal "Processing failed for order 9!" 2 [sleepIntervalMs] :=
  waitForReady_failed_aborts "9" [⟨true, false, false, false, "p"⟩]
    [⟨false, false, false, false, "r"⟩] ⟨false, true, false, false, "f"⟩
    (by decide) rfl rfl

/-! ## Claim C4 -/

/-- C4: `waitForReady` polls until the first non-processing status: on a
script of `n` processing statuses followed by a non-failed terminal status,
it issues exactly `n + 1` status calls, returns that terminal status, and
sleeps the fixed 30-second interval (`sleepIntervalMs`) between consecutive
fetches - `n` sleeps for `n + 1` calls. For the scripted sequence
`[processing, processing, ready]` this is exactly 3 calls returning the ready
status (see the witness). -/
theorem waitForReady_polls_until_ready (orderId : String)
    (pre rest : List OrderStatus) (s : OrderStatus)
    (hpre : ∀ x ∈ pre, x.processing = true)
    (hs : s.processing = false) (hf : s.failed = false) :
    waitForReady orderId (pre ++ s :: rest) =
      WaitOutcome.ok s (pre.length + 1) (List.replicate pre.length sleepIntervalMs) := by
  rw [waitForReady_run orderId pre s rest hpre hs]
  simp [hf]

/-- C4 witness: the scripted sequence `[processing, processing, ready]`
yields exactly 3 status calls, the ready status as result, and two 30-second
sleeps. -/
theorem waitForReady_polls_until_ready_witness :
    waitForReady "7"
        ([⟨true, false, false, false, "p"⟩, ⟨true, false, false, false, "p"⟩] ++
          ⟨false, false, true, false, "ready"⟩ :: []) =
      WaitOutcome.ok ⟨false, false, true, false, "ready"⟩ 3
        [sleepIntervalMs, sleepIntervalMs] :=
  waitForReady_polls_until_ready "7"
    [⟨true, false, false, false, "p"⟩, ⟨true, false, false, false, "p"⟩] []
    ⟨false, false, true, false, "ready"⟩ (by decide) rfl rfl

/-! ## Lemmas about the endpoint resolver -/

/-- The first four characters of `https://` followed by anything are
`http`. -/
lemma take_four_httpsScheme_append (x : List Char) :
    (httpsSchemeChars ++ x).take 4 = httpChars := rfl

/-- On an input that does not end in a double slash, is non-empty and is not
the single slash, the stripped string is non-empty and carries no trailing
slash. -/
lemma stripSlash_facts (s : List Char) (h2 : ¬ ['/', '/'] <:+ s)
    (h0 : s ≠ []) (h1 : s ≠ ['/']) :
    stripSlash s ≠ [] ∧ (stripSlash s).getLast? ≠ some '/' := by
  unfold stripSlash
  by_cases hl : s.getLast? = some '/'
  · obtain ⟨t, rfl⟩ := List.getLast?_eq_some_iff.mp hl
    rw [if_pos hl, List.dropLast_concat]
    refine ⟨?_, ?_⟩
    · rintro rfl
      exact h1 rfl
    · intro hcon
      obtain ⟨u, rfl⟩ := List.getLast?_eq_some_iff.mp hcon
      exact h2 ⟨u, by simp⟩
  · rw [if_neg hl]
    exact ⟨h0, hl⟩

/-- A string already of canonical form - starting with `http` and carrying no
trailing slash - is a fixed point of the endpoint resolver. -/
lemma getEndpointChars_fixed (r : List Char) (hlast : r.getLast? ≠ some '/')
    (hhttp : r.take 4 = httpChars) : getEndpointChars r = r := by
  unfold getEndpointChars stripSlash
  simp [hlast, hhttp]

/-! ## Claim C3 -/

/-- C3, counterexample: `getEndpoint` is not idempotent on every string; on
`example.com//` one application yields `https://example.com/` and the second
strips the remaining slash. -/
theorem getEndpoint_not_idempotent_counterexample :
    getEndpoint (getEndpoint "example.com//") ≠ getEndpoint "example.com//" := by
  decide

/-- C3, amended: `getEndpoint` is idempotent on every input that does not end
with a double slash, is not the empty string and is not the single slash
`"/"` (on those remaining inputs one application leaves a trailing slash that
the second application removes). -/
theorem getEndpoint_idem (s : String) (h2 : ¬ ['/', '/'] <:+ s.data)
    (h0 : s ≠ "") (h1 : s ≠ "/") :
    getEndpoint (getEndpoint s) = getEndpoint s := by
  have h0d : s.data ≠ [] := fun h => h0 (String.ext (by rw [h]))
  have h1d : s.data ≠ ['/'] := fun h => h1 (String.ext (by rw [h]))
  obtain ⟨hne, hlast⟩ := stripSlash_facts s.data h2 h0d h1d
  apply String.ext
  show getEndpointChars (getEndpointChars s.data) = getEndpointChars s.data
  have hcase : getEndpointChars s.data = stripSlash s.data ∨
      getEndpointChars s.data = httpsSchemeChars ++ stripSlash s.data := by
    by_cases hc : (stripSlash s.data).take 4 = httpChars
    · left
      simp [getEndpointChars, hc]
    · right
      simp [getEndpointChars, hc]
  have hhttp : (getEndpointChars s.data).take 4 = httpChars := by
    by_cases hc : (stripSlash s.data).take 4 = httpChars
    · simp [getEndpointChars, hc]
    · simp [getEndpointChars, hc, take_four_httpsScheme_append]
  have hlast2 : (getEndpointChars s.data).getLast? ≠ some '/' := by
    rcases hcase with h | h
    · rw [h]
      exact hlast
    · rw [h, List.getLast?_append_of_ne_nil _ hne]
      exact hlast
  exact getEndpointChars_fixed _ hlast2 hhttp

/-- C3 witness: on `example.com` (and on `https://example.com/`, compare the
doc example) applying `getEndpoint` twice equals applying it once. -/
theorem getEndpoint_idem_witness :
    getEndpoint (getEndpoint "example.com") = getEndpoint "example.com" :=
  getEndpoint_idem "example.com" (by decide) (by decide) (by decide)

/-! ## Claim C7 -/

/-- C7, counterexample: the script prepends `https://` based on
`startsWith("http")`, not on the presence of a scheme: `ftp://example.org`
has a scheme, yet `getEndpoint` still prepends `https://` to it. -/
theorem getEndpoint_scheme_counterexample :
    hasScheme "ftp://example.org".data = true ∧
    getEndpoint "ftp://example.org" = "https://ftp://example.org" := by
  constructor
  · decide
  · decide

/-- C7, amended: for every input string, `getEndpoint` strips one trailing
slash (exactly one: the input decomposes as `t ++ ['/']`, or is kept whole
when it has no trailing slash) and then prepends `https://` exactly when the
stripped input does not start with the four characters `http`; it has no
error conditions (the function is total). -/
theorem getEndpoint_strip_and_default (s : String) :
    ∃ t : List Char,
      (s.data = t ++ ['/'] ∨ (s.data = t ∧ ¬ ['/'] <:+ s.data)) ∧
      (getEndpoint s).data =
        (if t.take 4 = httpChars then t else httpsSchemeChars ++ t) := by
  by_cases hl : s.data.getLast? = some '/'
  · obtain ⟨t, ht⟩ := List.getLast?_eq_some_iff.mp hl
    refine ⟨t, Or.inl ht, ?_⟩
    have hstrip : stripSlash s.data = t := by
      rw [ht]
      unfold stripSlash
      simp [List.getLast?_concat, List.dropLast_concat]
    show getEndpointChars s.data = _
    unfold getEndpointChars
    rw [hstrip]
  · refine ⟨s.data, Or.inr ⟨rfl, ?_⟩, ?_⟩
    · intro hsuf
      obtain ⟨u, hu⟩ := hsuf
      exact hl (by rw [← hu]; exact List.getLast?_concat u)
    · have hstrip : stripSlash s.data = s.data := by
        unfold stripSlash
        simp [hl]
      show getEndpointChars s.data = _
      unfold getEndpointChars
      rw [hstrip]

/-! ## Claim C10 -/

/-- C10: when a response carries no `set-cookie` header, `getCookies` throws
the `TypeError` of calling `split` on `null` rather than any descriptive
`Error`, and the token fetches that call it - `getAntiforgeryHeaders` in v3
and `getTokens` in v2 - propagate that same `TypeError` even on an otherwise
successful (ok) response. -/
theorem getCookies_missing_set_cookie (response : FetchResponse)
    (habs : response.headers.get "set-cookie" = none) :
    getCookies response = Except.error (JsError.typeError
      "Cannot read properties of null (reading 'split')") ∧
    (∀ content : XsrfBody, response.ok = true →
      getAntiforgeryHeaders response content = Except.error (JsError.typeError
        "Cannot read properties of null (reading 'split')")) ∧
    (∀ content : XsrfBodyV2, response.ok = true →
      getTokens response content = Except.error (JsError.typeError
        "Cannot read properties of null (reading 'split')")) := by
  have hcook : getCookies response = Except.error (JsError.typeError
      "Cannot read properties of null (reading 'split')") := by
    unfold getCookies
    rw [habs]
  refine ⟨hcook, ?_, ?_⟩
  · intro content hok
    unfold getAntiforgeryHeaders
    rw [hcook, hok]
    simp
  · intro content hok
    unfold getTokens
    rw [hcook, hok]
    simp

/-- C10 witness: a successful response with no headers at all. -/
theorem getCookies_missing_set_cookie_witness :
    getCookies ⟨true, 200, ⟨[]⟩⟩ = Except.error (JsError.typeError
      "Cannot read properties of null (reading 'split')") ∧
    getAntiforgeryHeaders ⟨true, 200, ⟨[]⟩⟩ ⟨"x-xsrf", "tok"⟩
      = Except.error (JsError.typeError
        "Cannot read properties of null (reading 'split')") ∧
    getTokens ⟨true, 200, ⟨[]⟩⟩ ⟨"x-xsrf", "tok"⟩
      = Except.error (JsError.typeError
        "Cannot read properties of null (reading 'split')") := by
  obtain ⟨h1, h2, h3⟩ := getCookies_missing_set_cookie ⟨true, 200, ⟨[]⟩⟩ (by decide)
  exact ⟨h1, h2 ⟨"x-xsrf", "tok"⟩ rfl, h3 ⟨"x-xsrf", "tok"⟩ rfl⟩

/-! ## Claim C5 -/

/-- C5: the claim fails in the code as a slip. Every other failing HTTP call
throws a descriptive `Error` naming its step, but the rejected-login branch
of v3 `login` (line 143 of `src/api/v3/automate.js`) builds its message from
`response.status` while the response is bound as `loginResponse`: evaluating
the template throws `ReferenceError: response is not defined` instead of the
intended `Unable to log in! [<status>]`. Concretely, with a successful xsrf
handshake and a 401 on the login POST, the whole login run surfaces the
`ReferenceError`, which names neither the failing step nor the status. -/
theorem v3_rejected_login_reference_error :
    v3Login ⟨true, 200, ⟨[("set-cookie", "a=1; path=/")]⟩⟩ ⟨"x-xsrf", "tok"⟩
        ⟨false, 401, ⟨[("set-cookie", "b=2")]⟩⟩
        ⟨true, 200, ⟨[("set-cookie", "c=3")]⟩⟩ ⟨"x-xsrf", "tok2"⟩
      = Except.error (JsError.referenceError "response is not defined") := by
  decide

/-! ## Claim C2 -/

/-- C2, counterexample: the v2 submission path never inspects the
qualification response's HTTP status. A qualification response with
`ok = false` (HTTP 500) whose body carries an empty `errorMessage` does not
fail the run: with a successful upload response the submission completes
normally. -/
theorem upload_qualification_status_unchecked :
    QualificationResponse.ok ⟨false, 500, "", "1", ⟨"o.xml", [7]⟩⟩ = false ∧
    (upload (fun _ => []) "u.ply" "l.ply" ⟨false, 500, "", "1", ⟨"o.xml", [7]⟩⟩
      true).isFatal = false := by
  constructor
  · rfl
  · rfl

/-- C2, amended: the v2 submission fails fatally whenever the qualification
response body carries a non-empty `errorMessage` (throwing that message), and
whenever the upload HTTP call returns a non-success status (throwing
`Upload failed for order <id>!`); the qualification call's own HTTP
`ok`/`status` fields are never inspected - replacing them changes nothing in
the outcome. -/
theorem upload_failure_conditions (fsRead : String → List Nat)
    (upperJawPath lowerJawPath : String)
    (qualificationResponse : QualificationResponse) (uploadOk : Bool) :
    (qualificationResponse.errorMessage ≠ "" →
      upload fsRead upperJawPath lowerJawPath qualificationResponse uploadOk
        = UploadOutcome.fatal qualificationResponse.errorMessage) ∧
    (qualificationResponse.errorMessage = "" → uploadOk = false →
      upload fsRead upperJawPath lowerJawPath qualificationResponse uploadOk
        = UploadOutcome.fatal
            ("Upload failed for order " ++ qualificationResponse.orderId ++ "!")) ∧
    (∀ b : Bool, ∀ n : Nat,
      upload fsRead upperJawPath lowerJawPath
          { qualificationResponse with ok := b, status := n } uploadOk
        = upload fsRead upperJawPath lowerJawPath qualificationResponse uploadOk) := by
  refine ⟨?_, ?_, ?_⟩
  · intro herr
    unfold upload
    rw [if_pos herr]
  · intro herr hup
    unfold upload
    rw [if_neg (by simp [herr]), hup]
    simp
  · intro b n
    unfold upload
    rfl

/-- C2 witness: a non-empty qualification error message is thrown as the
fatal error. -/
theorem upload_failure_conditions_witness :
    upload (fun _ => []) "u.ply" "l.ply" ⟨true, 200, "Bad margin", "1", ⟨"o.xml", [7]⟩⟩
        true
      = UploadOutcome.fatal "Bad margin" :=
  (upload_failure_conditions (fun _ => []) "u.ply" "l.ply"
      ⟨true, 200, "Bad margin", "1", ⟨"o.xml", [7]⟩⟩ true).1 (by decide)

/-! ## Claim C6 -/

/-- C6: with accepting servers, the v3 finalizer issues the review (accept)
call exactly when the terminal status reports `reviewable`, the v2 finalizer
issues the accept call exactly when the terminal status does not already
report `accepted`, and in both versions the download GET is the last call
issued, whatever the flags. -/
theorem accept_policy (outputDirectory orderId : String) (status : OrderStatus)
    (reviewResponse acceptResponse : FetchResponse)
    (downloadResponse : BinaryResponse)
    (hr : reviewResponse.ok = true) (ha : acceptResponse.ok = true) :
    ((ApiAction.reviewPost orderId "accept") ∈
        (V3.acceptAndDownload outputDirectory orderId status reviewResponse
          downloadResponse).calls
      ↔ status.reviewable = true) ∧
    ((ApiAction.acceptPost orderId) ∈
        (V2.download outputDirectory orderId status acceptResponse
          downloadResponse).calls
      ↔ status.accepted = false) ∧
    (V3.acceptAndDownload outputDirectory orderId status reviewResponse
        downloadResponse).calls.getLast? = some (ApiAction.downloadGet orderId) ∧
    (V2.download outputDirectory orderId status acceptResponse
        downloadResponse).calls.getLast? = some (ApiAction.downloadGet orderId) := by
  unfold V3.acceptAndDownload V2.download V3.download
  rcases status with ⟨p, f, rv, ac, m⟩
  cases rv <;> cases ac <;> cases hdl : downloadResponse.ok <;>
    simp [hr, ha, hdl]

/-- C6 witness: a reviewable, not-yet-accepted terminal status with
accepting servers: v3 reviews then downloads, v2 accepts then downloads. -/
theorem accept_policy_witness :
    ((ApiAction.reviewPost "7" "accept") ∈
        (V3.acceptAndDownload "out" "7" ⟨false, false, true, false, "ready"⟩
          ⟨true, 200, ⟨[]⟩⟩ ⟨true, 200, [1, 2]⟩).calls
      ↔ OrderStatus.reviewable ⟨false, false, true, false, "ready"⟩ = true) ∧
    ((ApiAction.acceptPost "7") ∈
        (V2.download "out" "7" ⟨false, false, true, false, "ready"⟩
          ⟨true, 200, ⟨[]⟩⟩ ⟨true, 200, [1, 2]⟩).calls
      ↔ OrderStatus.accepted ⟨false, false, true, false, "ready"⟩ = false) ∧
    (V3.acceptAndDownload "out" "7" ⟨false, false, true, false, "ready"⟩
        ⟨true, 200, ⟨[]⟩⟩ ⟨true, 200, [1, 2]⟩).calls.getLast?
      = some (ApiAction.downloadGet "7") ∧
    (V2.download "out" "7" ⟨false, false, true, false, "ready"⟩
        ⟨true, 200, ⟨[]⟩⟩ ⟨true, 200, [1, 2]⟩).calls.getLast?
      = some (ApiAction.downloadGet "7") :=
  accept_policy "out" "7" ⟨false, false, true, false, "ready"⟩
    ⟨true, 200, ⟨[]⟩⟩ ⟨true, 200, ⟨[]⟩⟩ ⟨true, 200, [1, 2]⟩ rfl rfl

/-! ## Claim C9 -/

/-- C9, counterexample: the output path joins the directory and file name
with a backslash, not a slash: downloading order `7` into directory `out`
writes `out\7.zip` (one backslash character), not `out/7.zip`. -/
theorem download_path_backslash_counterexample :
    (V3.download "out" "7" ⟨true, 200, [1, 2, 3]⟩).writes
      = [⟨"out\\7.zip", [1, 2, 3]⟩] ∧
    "out\\7.zip" ≠ "out/7.zip" := by
  constructor
  · rfl
  · decide

/-- C9, amended: for every successful download of order `X` into configured
output directory `D`, both versions write exactly one output file, at path
`D\X.zip` (backslash separator, from the `\\` escape in the JS template
literal), whose bytes are verbatim the response body. -/
theorem download_writes_once (outputDirectory orderId : String)
    (status : OrderStatus) (acceptResponse : FetchResponse)
    (downloadResponse : BinaryResponse)
    (hd : downloadResponse.ok = true) (ha : acceptResponse.ok = true) :
    (V3.download outputDirectory orderId downloadResponse).writes
      = [⟨outputDirectory ++ "\\" ++ orderId ++ ".zip", downloadResponse.body⟩] ∧
    (V2.download outputDirectory orderId status acceptResponse
        downloadResponse).writes
      = [⟨outputDirectory ++ "\\" ++ orderId ++ ".zip", downloadResponse.body⟩] := by
  unfold V3.download V2.download
  rcases status with ⟨p, f, rv, ac, m⟩
  cases ac <;> simp [hd, ha]

/-- C9 witness: order `7`, directory `out`, body `[1, 2, 3]`: both versions
write exactly `out\7.zip` with those bytes. -/
theorem download_writes_once_witness :
    (V3.download "out" "7" ⟨true, 200, [1, 2, 3]⟩).writes
      = [⟨"out" ++ "\\" ++ "7" ++ ".zip", [1, 2, 3]⟩] ∧
    (V2.download "out" "7" ⟨false, false, false, true, "ready"⟩ ⟨true, 200, ⟨[]⟩⟩
        ⟨true, 200, [1, 2, 3]⟩).writes
      = [⟨"out" ++ "\\" ++ "7" ++ ".zip", [1, 2, 3]⟩] :=
  download_writes_once "out" "7" ⟨false, false, false, true, "ready"⟩
    ⟨true, 200, ⟨[]⟩⟩ ⟨true, 200, [1, 2, 3]⟩ rfl rfl

/-! ## Lemmas about the archive codec -/

/-- Each serialised entry occupies at least one token, so the stream length
bounds the entry count. -/
lemma deflateAll_length_le (es : List ZipEntry) :
    es.length ≤ (deflateAll es).length := by
  induction es with
  | nil => simp [deflateAll]
  | cons e es ih =>
    have h1 : 0 < (deflateEntry e).length := by
      simp [deflateEntry]
    simp only [deflateAll, List.length_append, List.length_cons]
    omega

/-- Decoding a serialised entry list with enough fuel recovers the entries,
names included. -/
lemma inflateAux_deflateAll (es : List ZipEntry) (f : Nat) (hf : es.length ≤ f) :
    inflateAux f (deflateAll es) = es := by
  induction es generalizing f with
  | nil =>
    cases f with
    | zero => rfl
    | succ g => rfl
  | cons e es ih =>
    cases f with
    | zero => simp at hf
    | succ g =>
      have hle : es.length ≤ g := by
        simp only [List.length_cons] at hf
        omega
      have hstream : deflateAll (e :: es) =
          (e.name.data.map Char.toNat).length ::
            ((e.name.data.map Char.toNat) ++
              (e.content.length :: (e.content ++ deflateAll es))) := by
        simp [deflateAll, deflateEntry, List.append_assoc]
      rw [hstream]
      simp only [inflateAux, List.take_left, List.drop_left]
      simp only [List.map_map]
      have hname : e.name.data.map (Char.ofNat ∘ Char.toNat) = e.name.data := by
        simp [Function.comp_def, Char.ofNat_toNat]
      rw [hname, ih g hle]

/-- Round trip at the archive interface: decompressing a generated stream
yields the entry list back. -/
lemma inflate_deflateAll (es : List ZipEntry) : inflate (deflateAll es) = es :=
  inflateAux_deflateAll es (deflateAll es).length (deflateAll_length_le es)

/-! ## Claim C8 -/

/-- C8: when the three member names are pairwise distinct (JsZip's `file`
replaces an existing member of the same name), the archive built for upload
contains exactly the expected named entries - the two scan names in v3, plus
the order file's name in v2 - and decompressing the produced archive yields
byte-for-byte the input contents under those names. -/
theorem archive_roundtrip (fsRead : String → List Nat)
    (upperJawPath lowerJawPath orderId : String) (orderFile : OrderFile)
    (h1 : scanNameOf upperJawPath ≠ scanNameOf lowerJawPath)
    (h2 : scanNameOf upperJawPath ≠ orderFile.name)
    (h3 : scanNameOf lowerJawPath ≠ orderFile.name) :
    inflate (getScanZipAsBuffer fsRead upperJawPath lowerJawPath)
      = [⟨scanNameOf upperJawPath, fsRead upperJawPath⟩,
         ⟨scanNameOf lowerJawPath, fsRead lowerJawPath⟩] ∧
    inflate (getUploadContent fsRead upperJawPath lowerJawPath orderId
        orderFile).fileContent
      = [⟨scanNameOf upperJawPath, fsRead upperJawPath⟩,
         ⟨scanNameOf lowerJawPath, fsRead lowerJawPath⟩,
         ⟨orderFile.name, orderFile.content⟩] := by
  have hz1 : JsZip.file JsZip.empty (scanNameOf upperJawPath) (fsRead upperJawPath)
      = ⟨[⟨scanNameOf upperJawPath, fsRead upperJawPath⟩]⟩ := by
    simp [JsZip.file, JsZip.empty]
  have hz2 : JsZip.file ⟨[⟨scanNameOf upperJawPath, fsRead upperJawPath⟩]⟩
      (scanNameOf lowerJawPath) (fsRead lowerJawPath)
      = ⟨[⟨scanNameOf upperJawPath, fsRead upperJawPath⟩,
          ⟨scanNameOf lowerJawPath, fsRead lowerJawPath⟩]⟩ := by
    simp [JsZip.file, h1]
  have hz3 : JsZip.file ⟨[⟨scanNameOf upperJawPath, fsRead upperJawPath⟩,
        ⟨scanNameOf lowerJawPath, fsRead lowerJawPath⟩]⟩
      orderFile.name orderFile.content
      = ⟨[⟨scanNameOf upperJawPath, fsRead upperJawPath⟩,
          ⟨scanNameOf lowerJawPath, fsRead lowerJawPath⟩,
          ⟨orderFile.name, orderFile.content⟩]⟩ := by
    simp [JsZip.file, h2, h3]
  constructor
  · show inflate (JsZip.generateAsync
      ((JsZip.empty.file (scanNameOf upperJawPath) (fsRead upperJawPath)).file
        (scanNameOf lowerJawPath) (fsRead lowerJawPath))) = _
    rw [hz1, hz2]
    exact inflate_deflateAll _
  · show inflate (JsZip.generateAsync
      (((JsZip.empty.file (scanNameOf upperJawPath) (fsRead upperJawPath)).file
        (scanNameOf lowerJawPath) (fsRead lowerJawPath)).file
        orderFile.name orderFile.content)) = _
    rw [hz1, hz2, hz3]
    exact inflate_deflateAll _

/-- C8 witness: distinct concrete names and contents round-trip through the
archive in both versions. -/
theorem archive_roundtrip_witness :
    inflate (getScanZipAsBuffer
        (fun p => if p = "u.ply" then [1, 2] else [3]) "u.ply" "l.ply")
      = [⟨scanNameOf "u.ply", [1, 2]⟩, ⟨scanNameOf "l.ply", [3]⟩] ∧
    inflate (getUploadContent (fun p => if p = "u.ply" then [1, 2] else [3])
        "u.ply" "l.ply" "77" ⟨"order.xml", [9]⟩).fileContent
      = [⟨scanNameOf "u.ply", [1, 2]⟩, ⟨scanNameOf "l.ply", [3]⟩,
         ⟨"order.xml", [9]⟩] := by
  have h := archive_roundtrip (fun p => if p = "u.ply" then [1, 2] else [3])
    "u.ply" "l.ply" "77" ⟨"order.xml", [9]⟩ (by decide) (by decide) (by decide)
  simpa using h
